import Mathlib

/-!
Verification of the Bastion-Manager module's slot model.

The definitions below are a shallow embedding of the computational parts of
`src/scripts/bastion-detail.mjs`, `src/scripts/bastion-overview.mjs` and
`src/scripts/module.mjs`:

* the advancement-table lookup that computes the per-category facility slot
  maximum (`_prepareFacilitiesContext`, also duplicated in
  `_prepareBastionsContext` of the overview);
* the occupancy-slot builder (`_prepareOccupants`);
* the per-category occupancy count and available-slot array;
* the visibility predicate (`canViewBastion`) and the enabled flag
  (`isBastionEnabled`) of `module.mjs`;
* the drag-and-drop handlers (`_onDropActor`, `_onDropFacility`), modelled as
  pure functions from their inputs to an explicit outcome value, where a
  document mutation happens exactly in the `updated`/`created` outcome.

JavaScript objects whose keys are level numbers enumerate their entries in
ascending numeric key order; an advancement-table category is therefore
embedded as a list of (level, slots) pairs, and theorems that depend on the
enumeration order carry a `Pairwise` hypothesis stating that key order.
-/

namespace BastionManager

/-- Embedding of the advancement lookup in `_prepareFacilitiesContext`
(bastion-detail.mjs lines 194-197) and `_prepareBastionsContext`
(bastion-overview.mjs lines 130-134):
`Object.entries(config).reverse().find(([lvl]) => Number(lvl) <= level)`,
with the found value defaulted to 0 (`baseAvailable || 0`; slot counts are
non-negative, so the JS falsy-default only replaces a missing entry or a
stored 0 by 0). -/
def lookupAdvancement (config : List (Nat × Nat)) (level : Nat) : Nat :=
  ((config.reverse.find? (fun p => decide (p.1 ≤ level))).map Prod.snd).getD 0

/-- Embedding of `totalAvailable = (baseAvailable || 0) + override`.
The override is an arbitrary integer (the DM may store any number), so the
result lives in `Int`. -/
def computeMax (config : List (Nat × Nat)) (level : Nat) (override : Int) : Int :=
  (lookupAdvancement config level : Int) + override

/-- In a list whose keys strictly decrease (the reverse of an ascending
advancement table), `find?` with the predicate `key ≤ level` returns the
entry with the greatest key ≤ level, and returns `none` exactly when no
entry is eligible. -/
theorem find?_desc_greatest (level : Nat) (r : List (Nat × Nat))
    (hr : r.Pairwise (fun p q => q.1 < p.1)) :
    (∀ q, r.find? (fun p => decide (p.1 ≤ level)) = some q →
        q ∈ r ∧ q.1 ≤ level ∧ ∀ p ∈ r, p.1 ≤ level → p.1 ≤ q.1)
    ∧ (r.find? (fun p => decide (p.1 ≤ level)) = none → ∀ p ∈ r, ¬ p.1 ≤ level) := by
  induction r with
  | nil =>
    constructor
    · intro q hq; simp at hq
    · intro _ p hp; simp at hp
  | cons a t ih =>
    rw [List.pairwise_cons] at hr
    obtain ⟨ha, ht⟩ := hr
    have iht := ih ht
    by_cases hle : a.1 ≤ level
    · constructor
      · intro q hq
        rw [List.find?_cons_of_pos _ (by simpa using hle)] at hq
        injection hq with hq
        subst hq
        refine ⟨List.mem_cons_self _ _, hle, ?_⟩
        intro p hp _
        rcases List.mem_cons.mp hp with h | h
        · exact h ▸ le_refl _
        · exact le_of_lt (ha p h)
      · intro hq
        rw [List.find?_cons_of_pos _ (by simpa using hle)] at hq
        exact absurd hq (by simp)
    · constructor
      · intro q hq
        rw [List.find?_cons_of_neg _ (by simpa using hle)] at hq
        obtain ⟨hmem, hqle, hmax⟩ := iht.1 q hq
        refine ⟨List.mem_cons_of_mem _ hmem, hqle, ?_⟩
        intro p hp hple
        rcases List.mem_cons.mp hp with h | h
        · exact absurd (h ▸ hple) hle
        · exact hmax p h hple
      · intro hq p hp
        rw [List.find?_cons_of_neg _ (by simpa using hle)] at hq
        rcases List.mem_cons.mp hp with h | h
        · exact h ▸ hle
        · exact iht.2 hq p h

/-- Monotonicity of the advancement lookup in the level, for tables whose
slot values do not decrease along the (ascending) level keys. -/
theorem lookupAdvancement_mono (config : List (Nat × Nat)) {l1 l2 : Nat}
    (hs : config.Pairwise (fun p q => p.1 < q.1 ∧ p.2 ≤ q.2)) (h : l1 ≤ l2) :
    lookupAdvancement config l1 ≤ lookupAdvancement config l2 := by
  have hkey : config.Pairwise (fun p q => p.1 < q.1) := hs.imp (fun h => h.1)
  have hr1 : config.reverse.Pairwise (fun p q => q.1 < p.1) := by
    rw [List.pairwise_reverse]; exact hkey
  have hchar1 := find?_desc_greatest l1 config.reverse hr1
  have hchar2 := find?_desc_greatest l2 config.reverse hr1
  cases hf1 : config.reverse.find? (fun p => decide (p.1 ≤ l1)) with
  | none =>
    unfold lookupAdvancement
    rw [hf1]
    simp
  | some q1 =>
    obtain ⟨hm1, hle1, _⟩ := hchar1.1 q1 hf1
    cases hf2 : config.reverse.find? (fun p => decide (p.1 ≤ l2)) with
    | none =>
      exact absurd (le_trans hle1 h) (hchar2.2 hf2 q1 hm1)
    | some q2 =>
      obtain ⟨hm2, _, hmax2⟩ := hchar2.1 q2 hf2
      have hq12 : q1.1 ≤ q2.1 := hmax2 q1 hm1 (le_trans hle1 h)
      have hv : q1.2 ≤ q2.2 := by
        have hm1' := List.mem_reverse.mp hm1
        have hm2' := List.mem_reverse.mp hm2
        obtain ⟨i, hi⟩ := List.mem_iff_get.mp hm1'
        obtain ⟨j, hj⟩ := List.mem_iff_get.mp hm2'
        rcases lt_trichotomy (i : Nat) (j : Nat) with hij | hij | hij
        · have hp := (List.pairwise_iff_get.mp hs) i j hij
          rw [hi, hj] at hp
          exact hp.2
        · have hij' : i = j := Fin.ext hij
          subst hij'
          rw [hi] at hj
          exact hj ▸ le_refl _
        · have hp := (List.pairwise_iff_get.mp hs) j i hij
          rw [hi, hj] at hp
          exact absurd hp.1 (not_lt.mpr hq12)
      unfold lookupAdvancement
      rw [hf1, hf2]
      simpa using hv

/-- C1: for every category table, level and override, the computed slot
maximum equals the table value at the greatest level key ≤ the actor's
level (0 when no key is eligible) plus the override. The `Pairwise`
hypothesis records the ascending numeric key order in which JavaScript
enumerates the table's entries. -/
theorem computeMax_greatest_key (config : List (Nat × Nat)) (level : Nat) (override : Int)
    (hs : config.Pairwise (fun p q => p.1 < q.1)) :
    (∃ q ∈ config, q.1 ≤ level ∧ (∀ p ∈ config, p.1 ≤ level → p.1 ≤ q.1) ∧
        computeMax config level override = (q.2 : Int) + override)
    ∨ ((∀ p ∈ config, ¬ p.1 ≤ level) ∧ computeMax config level override = override) := by
  have hr : config.reverse.Pairwise (fun p q => q.1 < p.1) := by
    rw [List.pairwise_reverse]; exact hs
  have hchar := find?_desc_greatest level config.reverse hr
  cases hfind : config.reverse.find? (fun p => decide (p.1 ≤ level)) with
  | none =>
    right
    constructor
    · intro p hp
      exact hchar.2 hfind p (List.mem_reverse.mpr hp)
    · unfold computeMax lookupAdvancement
      rw [hfind]
      simp
  | some q =>
    left
    obtain ⟨hmem, hqle, hmax⟩ := hchar.1 q hfind
    refine ⟨q, List.mem_reverse.mp hmem, hqle, ?_, ?_⟩
    · intro p hp hple
      exact hmax p (List.mem_reverse.mpr hp) hple
    · unfold computeMax lookupAdvancement
      rw [hfind]
      simp

/-- Witness for C1 at the spec's own example table `{1:2, 5:3}`, level 4,
override 1. -/
theorem computeMax_greatest_key_witness :
    ([(1, 2), (5, 3)] : List (Nat × Nat)).Pairwise (fun p q => p.1 < q.1) ∧
      ((∃ q ∈ ([(1, 2), (5, 3)] : List (Nat × Nat)), q.1 ≤ 4 ∧
          (∀ p ∈ ([(1, 2), (5, 3)] : List (Nat × Nat)), p.1 ≤ 4 → p.1 ≤ q.1) ∧
          computeMax [(1, 2), (5, 3)] 4 1 = (q.2 : Int) + 1)
        ∨ ((∀ p ∈ ([(1, 2), (5, 3)] : List (Nat × Nat)), ¬ p.1 ≤ 4) ∧
          computeMax [(1, 2), (5, 3)] 4 1 = 1)) :=
  ⟨by decide, computeMax_greatest_key [(1, 2), (5, 3)] 4 1 (by decide)⟩

/-- C6 counterexample: over arbitrary advancement tables the computation is
not monotone in the level. The table `{1:5, 3:2}` has ascending keys (so it
is a well-formed JavaScript table), yet the computed maximum drops from 5
at level 1 to 2 at level 3. -/
theorem computeMax_not_mono_counterexample :
    ([(1, 5), (3, 2)] : List (Nat × Nat)).Pairwise (fun p q => p.1 < q.1) ∧
    (1 : Nat) ≤ 3 ∧
    ¬ computeMax [(1, 5), (3, 2)] 1 0 ≤ computeMax [(1, 5), (3, 2)] 3 0 := by
  decide

/-- C6 amended: for every advancement table whose slot values are
non-decreasing along its ascending level keys, and every fixed override,
the computed slot maximum is monotonically non-decreasing in the level. -/
theorem computeMax_mono (config : List (Nat × Nat)) (override : Int) (l1 l2 : Nat)
    (hs : config.Pairwise (fun p q => p.1 < q.1 ∧ p.2 ≤ q.2)) (h : l1 ≤ l2) :
    computeMax config l1 override ≤ computeMax config l2 override := by
  unfold computeMax
  have hm := lookupAdvancement_mono config hs h
  exact add_le_add_right (by exact_mod_cast hm) override

/-- Witness for the amended C6 at the table `{1:2, 5:3}`, override 1,
levels 2 ≤ 6. -/
theorem computeMax_mono_witness :
    computeMax [(1, 2), (5, 3)] 2 1 ≤ computeMax [(1, 2), (5, 3)] 6 1 :=
  computeMax_mono [(1, 2), (5, 3)] 1 2 6 (by decide) (by decide)

/-- C7 counterexample: with the spec's example tables, level 4 and override
`{basic:1, special:0}`, the code computes special max = 1 (the greatest
special key ≤ 4 is 3, whose value is 1), so the claimed pair
(basic = 3, special = 0) is false. -/
theorem example_maxima_counterexample :
    ¬ (computeMax [(1, 2), (5, 3)] 4 1 = 3 ∧ computeMax [(1, 0), (3, 1)] 4 0 = 0) := by
  decide

/-- C7 amended: with table `{basic: {1:2, 5:3}, special: {1:0, 3:1}}`,
level 4 and override `{basic:1, special:0}`, the computed maxima are
basic max = 3 and special max = 1. -/
theorem example_maxima :
    computeMax [(1, 2), (5, 3)] 4 1 = 3 ∧ computeMax [(1, 0), (3, 1)] 4 0 = 1 := by
  decide

/-- Summary of a resolved occupant entity (`{name, img, uuid}` built from
the actor returned by `fromUuid`). -/
structure Entity where
  name : String
  img : String
  uuid : String
deriving DecidableEq

/-- One entry of the occupancy array built by `_prepareOccupants`
(bastion-detail.mjs lines 300-322). -/
structure OccupantSlot where
  index : Nat
  uuid : Option String
  actor : Option Entity
  empty : Bool
deriving DecidableEq

/-- Embedding of `_prepareOccupants` (bastion-detail.mjs lines 293-325).
The occupant data's `value` array is a list of possibly-null uuid entries
and `max` its capacity (JavaScript `occupantData.max || 0`); `resolve` is
the external `fromUuid` lookup. The guard
`if (!occupantData?.value?.length && !occupantData?.max) return []` is the
first branch; otherwise the loop pushes one entry per index below `max`. -/
def prepareOccupants (resolve : String → Option Entity)
    (value : List (Option String)) (max : Nat) : List OccupantSlot :=
  if value.length = 0 ∧ max = 0 then []
  else
    (List.range max).map (fun i =>
      match value.getD i none with
      | some uuid =>
          { index := i, uuid := some uuid, actor := resolve uuid,
            empty := (resolve uuid).isNone }
      | none => { index := i, uuid := none, actor := none, empty := true })

/-- C3: the occupancy builder returns exactly `max` entries regardless of
the length of the reference list, and returns the empty sequence when both
the capacity and the reference list are empty. -/
theorem prepareOccupants_length (resolve : String → Option Entity)
    (value : List (Option String)) (max : Nat) :
    (prepareOccupants resolve value max).length = max ∧
    prepareOccupants resolve [] 0 = [] := by
  constructor
  · unfold prepareOccupants
    by_cases h : value.length = 0 ∧ max = 0
    · rw [if_pos h]
      simp [h.2]
    · rw [if_neg h]
      simp
  · unfold prepareOccupants
    simp

/-- C8 counterexample: a slot can be marked empty while a reference is
stored at its index. With capacity 1, a single stored reference and a
resolver that fails on it (the referenced entity was deleted), the produced
slot keeps the stored uuid yet is marked empty, refuting "empty iff no
reference is stored at that index". -/
theorem occupancy_empty_iff_counterexample :
    (prepareOccupants (fun _ => none) [some "A"] 1).length = 1 ∧
    ∃ s ∈ prepareOccupants (fun _ => none) [some "A"] 1,
      s.empty = true ∧ s.uuid ≠ none := by
  decide

/-- C8 amended: every produced slot array has exactly `max` entries; each
slot carries the reference stored at its index (none when the index is past
the reference list or holds null), and a slot is marked empty iff its
stored reference is absent or fails to resolve — equivalently, iff the slot
holds no resolved actor. -/
theorem prepareOccupants_slots_spec (resolve : String → Option Entity)
    (value : List (Option String)) (max : Nat) :
    (prepareOccupants resolve value max).length = max ∧
    ∀ s ∈ prepareOccupants resolve value max,
      s.uuid = value.getD s.index none ∧
      s.actor = s.uuid.bind resolve ∧
      (s.empty = true ↔ s.actor = none) := by
  refine ⟨(prepareOccupants_length resolve value max).1, ?_⟩
  intro s hs
  unfold prepareOccupants at hs
  by_cases h : value.length = 0 ∧ max = 0
  · rw [if_pos h] at hs
    simp at hs
  · rw [if_neg h] at hs
    obtain ⟨i, _, hmap⟩ := List.mem_map.mp hs
    cases hv : value.getD i none with
    | some uuid =>
      rw [hv] at hmap
      subst hmap
      refine ⟨by simpa using hv.symm, rfl, ?_⟩
      cases hres : resolve uuid <;> simp [hres, Option.isNone]
    | none =>
      rw [hv] at hmap
      subst hmap
      exact ⟨by simpa using hv.symm, rfl, by simp⟩

/-- Record of one prepared facility, keeping the fields the slot
computation reads (`_prepareFacilityContext` copies `data.free` into the
context object whose list is then filtered). -/
structure FacilityRec where
  free : Bool
deriving DecidableEq

/-- Embedding of the occupancy count of bastion-detail.mjs line 199:
`chosen.filter(f => (type === 'basic') || !f.free).length`, where `isBasic`
is the `type === 'basic'` comparison for the category being prepared. -/
def categoryValue (isBasic : Bool) (chosen : List FacilityRec) : Nat :=
  (chosen.filter (fun f => isBasic || !f.free)).length

/-- C5: the occupancy count includes every facility of the category when the
category is basic (free ones included), and only the non-free facilities
when the category is special. -/
theorem categoryValue_basic_special (chosen : List FacilityRec) :
    categoryValue true chosen = chosen.length ∧
    categoryValue false chosen = (chosen.filter (fun f => f.free = false)).length := by
  constructor
  · unfold categoryValue
    simp
  · unfold categoryValue
    simp [Bool.not_eq_true']

/-- Embedding of the available-slot array of one category
(bastion-detail.mjs lines 204-207): `remaining = Math.max(0, max - value)`
entries carrying the category's free-slot label. `Int.toNat` is exactly the
clamp of `Math.max(0, ...)` on integers. -/
def availableArray (label : String) (max : Int) (value : Nat) : List String :=
  List.replicate (max - (value : Int)).toNat label

/-- Embedding of the post-loop guarantee for the basic category
(bastion-detail.mjs lines 210-213): when the basic available array is
empty, one build-slot entry is pushed. -/
def basicAvailable (max : Int) (value : Nat) : List String :=
  let avail := availableArray "DND5E.FACILITY.AvailableFacility.basic.free" max value
  if avail.length = 0 then ["DND5E.FACILITY.AvailableFacility.basic.build"] else avail

/-- C4: for every advancement table, level, override and occupancy count,
the basic category's available array has length at least 1 — even when
max - value ≤ 0 — and with max = 0 and value = 0 its length is exactly 1. -/
theorem basicAvailable_min_length (config : List (Nat × Nat)) (level : Nat)
    (override : Int) (value : Nat) :
    1 ≤ (basicAvailable (computeMax config level override) value).length ∧
    (basicAvailable 0 0).length = 1 := by
  constructor
  · simp only [basicAvailable, availableArray]
    by_cases h : ((computeMax config level override - (value : Int)).toNat) = 0
    · simp [h]
    · rw [if_neg (by simpa using h)]
      simpa [Nat.one_le_iff_ne_zero] using h
  · decide

/-- Per-actor entry of the `visibilitySettings` world setting: a `public`
flag and an optional explicit list of user ids. A missing field is the
JavaScript `undefined`, i.e. `false` for the flag and `none` for the
list. -/
structure VisibilityEntry where
  public : Bool
  users : Option (List String)
deriving DecidableEq

/-- Embedding of `canViewBastion` (module.mjs lines 187-201). `isGM` is the
truthiness of `game.users.get(userId)?.isGM`; `isOwner` is the truthiness
of `game.actors.get(actorId)?.isOwner` (false when the actor is missing).
Ownership is evaluated by the host for the session user, and the JS default
argument `userId = game.user.id` — used at every call site — identifies the
session user with `userId`, so ownership is a predicate on the actor id.
`visibility` is the stored settings mapping (`visibility[actorId] || {}`
supplies the empty entry). -/
def canViewBastion (isGM : String → Bool) (isOwner : String → Bool)
    (visibility : String → Option VisibilityEntry)
    (actorId userId : String) : Bool :=
  if isGM userId then true
  else if isOwner actorId then true
  else
    let actorVisibility := (visibility actorId).getD ⟨false, none⟩
    actorVisibility.public || (actorVisibility.users.getD []).contains userId

/-- C2: canView returns true iff the user is a privileged (GM) role, or
owns the target actor, or the actor's visibility settings mark it public,
or explicitly list that userId; in particular any privileged-role caller
gets true regardless of the other inputs. -/
theorem canViewBastion_spec (isGM : String → Bool) (isOwner : String → Bool)
    (visibility : String → Option VisibilityEntry) (actorId userId : String) :
    (canViewBastion isGM isOwner visibility actorId userId = true ↔
      (isGM userId = true ∨ isOwner actorId = true ∨
        ((visibility actorId).getD ⟨false, none⟩).public = true ∨
        userId ∈ ((visibility actorId).getD ⟨false, none⟩).users.getD [])) ∧
    (isGM userId = true → canViewBastion isGM isOwner visibility actorId userId = true) := by
  constructor
  · unfold canViewBastion
    by_cases hgm : isGM userId = true
    · simp [hgm]
    · by_cases hown : isOwner actorId = true
      · simp [hgm, hown]
      · simp [hgm, hown, List.contains, List.elem_iff]
  · intro h
    unfold canViewBastion
    simp [h]

/-- Witness for C2: a GM caller is allowed although the actor is unowned
and its visibility entry is absent. -/
theorem canViewBastion_spec_witness :
    canViewBastion (fun _ => true) (fun _ => false) (fun _ => none) "a" "u" = true :=
  (canViewBastion_spec (fun _ => true) (fun _ => false) (fun _ => none) "a" "u").2 rfl

/-- A JavaScript value stored in a settings mapping; `vnull` is the JS
null, numbers and strings keep their payload, and an absent key is
modelled as `none` outside this type. -/
inductive JSVal where
  | vbool (b : Bool)
  | vnull
  | vnum (n : Int)
  | vstr (s : String)
deriving DecidableEq

/-- Embedding of `isBastionEnabled` (module.mjs lines 222-226): the strict
comparison `enabled[actorId] !== false`, true unless the stored entry is
exactly the boolean `false`. -/
def isBastionEnabled (enabled : String → Option JSVal) (actorId : String) : Bool :=
  if enabled actorId = some (JSVal.vbool false) then false else true

/-- C10: isBastionEnabled returns true unless the stored entry for that
actorId is exactly the boolean false; a missing entry, null, 0 or the
empty string all count as enabled. -/
theorem isBastionEnabled_spec (enabled : String → Option JSVal) (actorId : String) :
    (isBastionEnabled enabled actorId = true ↔
      enabled actorId ≠ some (JSVal.vbool false)) ∧
    isBastionEnabled (fun _ => none) actorId = true ∧
    isBastionEnabled (fun _ => some JSVal.vnull) actorId = true ∧
    isBastionEnabled (fun _ => some (JSVal.vnum 0)) actorId = true ∧
    isBastionEnabled (fun _ => some (JSVal.vstr "")) actorId = true := by
  refine ⟨?_, by simp [isBastionEnabled], by simp [isBastionEnabled],
    by simp [isBastionEnabled], by simp [isBastionEnabled]⟩
  unfold isBastionEnabled
  by_cases h : enabled actorId = some (JSVal.vbool false) <;> simp [h]

/-- Decoded drag payload (`TextEditor.getDragEventData`): the payload's
`type` discriminator and the dragged document's uuid. -/
structure DragData where
  type : String
  uuid : String
deriving DecidableEq

/-- The `{max, value}` occupant property read from a facility by
`foundry.utils.getProperty(facility, prop) || {}`; either field may be
absent. -/
structure OccupantProp where
  value : Option (List String)
  max : Option Nat
deriving DecidableEq

/-- Outcome of `_onDropActor`: a silent early return, a user-facing warning
with no mutation, or the single `facility.update` call writing the new
occupant uuid list — the only document mutation of that handler. -/
inductive ActorDropResult where
  | ignored
  | warned (key : String)
  | updated (newValue : List String)
deriving DecidableEq

/-- Embedding of `_onDropActor` (bastion-detail.mjs lines 448-473).
`target` is `some p` when the event target carries a facility id and an
occupant property path and that facility exists on the actor; any missing
piece makes the handler return silently. The slot-full comparison is
`(value?.length || 0) >= (max || 0)`. -/
def onDropActor (data : Option DragData) (target : Option OccupantProp) :
    ActorDropResult :=
  match data with
  | none => .ignored
  | some d =>
    if d.type ≠ "Actor" then .ignored
    else
      match target with
      | none => .ignored
      | some p =>
        if (p.value.getD []).length ≥ p.max.getD 0 then
          .warned "BASTION_MANAGER.Warnings.SlotFull"
        else
          .updated ((p.value.getD []) ++ [d.uuid])

/-- A dropped item as resolved by `fromUuid`: its document type, its
facility subtype (`item.system?.type?.value`), its required level
(`item.system?.level || 0`) and its name. -/
structure DropItem where
  itemType : String
  facilityType : Option String
  level : Nat
  name : String
deriving DecidableEq

/-- Outcome of `_onDropFacility`: silent return, an error or warning
notification with no mutation, or the `createEmbeddedDocuments` call — the
only document mutation of that handler (followed by an info
notification). -/
inductive FacilityDropResult where
  | ignored
  | errored (key : String)
  | warned (key : String)
  | created (name : String)
deriving DecidableEq

/-- Embedding of `_onDropFacility` (bastion-detail.mjs lines 478-529):
permission guard, payload-type guard, slot-type guard, then the failure
checks in source order — unresolvable item, non-facility item, facility
subtype different from the slot's, required level above the actor's — and
finally the creation of the facility on the actor. -/
def onDropFacility (isOwner isGM : Bool) (data : Option DragData)
    (facilityType : Option String) (resolveItem : String → Option DropItem)
    (actorLevel : Nat) : FacilityDropResult :=
  if !isOwner && !isGM then .ignored
  else
    match data with
    | none => .ignored
    | some d =>
      if d.type ≠ "Item" then .ignored
      else
        match facilityType with
        | none => .ignored
        | some slotType =>
          match resolveItem d.uuid with
          | none => .errored "BASTION_MANAGER.Warnings.ItemNotFound"
          | some item =>
            if item.itemType ≠ "facility" then
              .warned "BASTION_MANAGER.Warnings.NotAFacility"
            else if item.facilityType ≠ some slotType then
              .warned "BASTION_MANAGER.Warnings.WrongFacilityType"
            else if item.level > actorLevel then
              .warned "BASTION_MANAGER.Warnings.LevelTooLow"
            else
              .created item.name

/-- True exactly on the `_onDropActor` outcome that issues the
`facility.update` document mutation. -/
def actorDropMutates : ActorDropResult → Bool
  | .updated _ => true
  | _ => false

/-- True exactly on the `_onDropFacility` outcome that issues the
`createEmbeddedDocuments` document mutation. -/
def facilityDropMutates : FacilityDropResult → Bool
  | .created _ => true
  | _ => false

/-- True exactly on the `_onDropFacility` outcome produced by
`ui.notifications.warn`. -/
def facilityDropWarns : FacilityDropResult → Bool
  | .warned _ => true
  | _ => false

/-- C9 counterexample: when the dropped item is missing, the handler
raises `ui.notifications.error`, not a warning, so the claim's "raises a
user-facing warning" fails for that case (no mutation is issued either
way). -/
theorem dropFailure_counterexample :
    onDropFacility true false (some ⟨"Item", "u"⟩) (some "basic") (fun _ => none) 5
      = FacilityDropResult.errored "BASTION_MANAGER.Warnings.ItemNotFound" ∧
    facilityDropWarns
      (onDropFacility true false (some ⟨"Item", "u"⟩) (some "basic") (fun _ => none) 5)
      = false ∧
    facilityDropMutates
      (onDropFacility true false (some ⟨"Item", "u"⟩) (some "basic") (fun _ => none) 5)
      = false := by
  decide

/-- C9 amended: every failed drop action — dropped item missing, dropped
document not a facility, facility subtype mismatch, actor level below the
facility's required level, or occupant slot list already at its maximum —
raises a user-facing notification (a warning, except the missing-item case
which is an error notification) and issues no document mutation. -/
theorem dropFailure_no_mutation (isOwner isGM : Bool) (d : DragData) (slotType : String)
    (resolveItem : String → Option DropItem) (actorLevel : Nat)
    (a : DragData) (p : OccupantProp)
    (hEdit : (isOwner || isGM) = true) (hItem : d.type = "Item")
    (hActor : a.type = "Actor") :
    (resolveItem d.uuid = none →
      onDropFacility isOwner isGM (some d) (some slotType) resolveItem actorLevel
          = .errored "BASTION_MANAGER.Warnings.ItemNotFound" ∧
      facilityDropMutates
          (onDropFacility isOwner isGM (some d) (some slotType) resolveItem actorLevel)
          = false) ∧
    (∀ it, resolveItem d.uuid = some it → it.itemType ≠ "facility" →
      onDropFacility isOwner isGM (some d) (some slotType) resolveItem actorLevel
          = .warned "BASTION_MANAGER.Warnings.NotAFacility" ∧
      facilityDropMutates
          (onDropFacility isOwner isGM (some d) (some slotType) resolveItem actorLevel)
          = false) ∧
    (∀ it, resolveItem d.uuid = some it → it.itemType = "facility" →
      it.facilityType ≠ some slotType →
      onDropFacility isOwner isGM (some d) (some slotType) resolveItem actorLevel
          = .warned "BASTION_MANAGER.Warnings.WrongFacilityType" ∧
      facilityDropMutates
          (onDropFacility isOwner isGM (some d) (some slotType) resolveItem actorLevel)
          = false) ∧
    (∀ it, resolveItem d.uuid = some it → it.itemType = "facility" →
      it.facilityType = some slotType → actorLevel < it.level →
      onDropFacility isOwner isGM (some d) (some slotType) resolveItem actorLevel
          = .warned "BASTION_MANAGER.Warnings.LevelTooLow" ∧
      facilityDropMutates
          (onDropFacility isOwner isGM (some d) (some slotType) resolveItem actorLevel)
          = false) ∧
    ((p.value.getD []).length ≥ p.max.getD 0 →
      onDropActor (some a) (some p) = .warned "BASTION_MANAGER.Warnings.SlotFull" ∧
      actorDropMutates (onDropActor (some a) (some p)) = false) := by
  have hguard : (!isOwner && !isGM) = false := by
    cases isOwner <;> cases isGM <;> simp_all
  refine ⟨?_, ?_, ?_, ?_, ?_⟩
  · intro hres
    simp [onDropFacility, hguard, hItem, hres, facilityDropMutates]
  · intro it hres hty
    simp [onDropFacility, hguard, hItem, hres, hty, facilityDropMutates]
  · intro it hres hty hft
    simp [onDropFacility, hguard, hItem, hres, hty, hft, facilityDropMutates]
  · intro it hres hty hft hlvl
    simp [onDropFacility, hguard, hItem, hres, hty, hft, hlvl, facilityDropMutates]
  · intro hfull
    simp [onDropActor, hActor, hfull, actorDropMutates]

/-- Witness for the amended C9: a missing item yields the error
notification and a full slot yields the slot-full warning, at concrete
inputs. -/
theorem dropFailure_no_mutation_witness :
    onDropFacility true false (some ⟨"Item", "u1"⟩) (some "special") (fun _ => none) 5
      = FacilityDropResult.errored "BASTION_MANAGER.Warnings.ItemNotFound" ∧
    onDropActor (some ⟨"Actor", "v1"⟩) (some ⟨some ["w1"], some 1⟩)
      = ActorDropResult.warned "BASTION_MANAGER.Warnings.SlotFull" :=
  ⟨((dropFailure_no_mutation true false ⟨"Item", "u1"⟩ "special" (fun _ => none) 5
      ⟨"Actor", "v1"⟩ ⟨some ["w1"], some 1⟩ rfl rfl rfl).1 rfl).1,
   ((dropFailure_no_mutation true false ⟨"Item", "u1"⟩ "special" (fun _ => none) 5
      ⟨"Actor", "v1"⟩ ⟨some ["w1"], some 1⟩ rfl rfl rfl).2.2.2.2 (by decide)).1⟩

end BastionManager
